import Mathlib

/-!
Verification of the rank-eligibility search engine of the JOSAA CSV API
(`src/app.js`, `GET /api/search` handler, lines 232-343).

JavaScript numbers are modelled exactly: finite values as rationals, plus
the special values `NaN`, `Infinity` and `-Infinity` (the `JsNum` type).
`parseInt` applied to a number is modelled as truncation toward zero of its
plain decimal representation (`NaN` for the non-finite values, whose string
forms do not parse).  Record fields that the handler reads through
`parseInt` (`ClosingRank`, `OpeningRank`, `StateId`) are modelled as
integers, matching the data model of the CSV source (positive integral
rank columns).
-/

/-- A JavaScript number: `NaN`, the two infinities, or a finite value
(modelled as an exact rational). -/
inductive JsNum where
  | nan : JsNum
  | inf : JsNum
  | ninf : JsNum
  | fin : ℚ → JsNum
deriving DecidableEq

namespace JsNum

/-- JavaScript `isNaN` on an already-converted number. -/
def isNaN : JsNum → Bool
  | nan => true
  | _ => false

/-- JavaScript multiplication of two numbers. -/
def mul : JsNum → JsNum → JsNum
  | nan, _ => nan
  | _, nan => nan
  | inf, inf => inf
  | inf, ninf => ninf
  | ninf, inf => ninf
  | ninf, ninf => inf
  | inf, fin q => if q = 0 then nan else if 0 < q then inf else ninf
  | fin q, inf => if q = 0 then nan else if 0 < q then inf else ninf
  | ninf, fin q => if q = 0 then nan else if 0 < q then ninf else inf
  | fin q, ninf => if q = 0 then nan else if 0 < q then ninf else inf
  | fin a, fin b => fin (a * b)

/-- JavaScript subtraction of two numbers. -/
def sub : JsNum → JsNum → JsNum
  | nan, _ => nan
  | _, nan => nan
  | inf, inf => nan
  | inf, ninf => inf
  | inf, fin _ => inf
  | ninf, inf => ninf
  | ninf, ninf => nan
  | ninf, fin _ => ninf
  | fin _, inf => ninf
  | fin _, ninf => inf
  | fin a, fin b => fin (a - b)

/-- JavaScript division of a number by the literal `100`. -/
def div100 : JsNum → JsNum
  | nan => nan
  | inf => inf
  | ninf => ninf
  | fin a => fin (a / 100)

end JsNum

/-- Truncation toward zero of a rational, the rounding JavaScript
`parseInt` performs on the decimal string of a finite number
(`parseInt(-0.5)` is `-0`, not `-1`). -/
def ratTrunc (q : ℚ) : ℤ :=
  if 0 ≤ q then ⌊q⌋ else -⌊-q⌋

/-- JavaScript `parseInt` applied to a number: the number is converted to
its string form and re-parsed.  Finite values truncate toward zero;
`NaN`, `Infinity` and `-Infinity` stringify to words that do not parse,
giving `NaN`. -/
def jsParseIntNum : JsNum → JsNum
  | JsNum.nan => JsNum.nan
  | JsNum.inf => JsNum.nan
  | JsNum.ninf => JsNum.nan
  | JsNum.fin q => JsNum.fin ((ratTrunc q : ℤ) : ℚ)

/-- JavaScript `a >= b` where `a` is an integer (a parsed rank column) and
`b` is a number: false whenever `b` is `NaN`. -/
def jsGeIntNum (a : ℤ) : JsNum → Bool
  | JsNum.nan => false
  | JsNum.inf => false
  | JsNum.ninf => true
  | JsNum.fin q => decide (q ≤ (a : ℚ))

/-- Leading decimal digits of a character list, as a natural number;
`none` when there is no leading digit. -/
def leadDigits (cs : List Char) : Option ℕ :=
  let ds := cs.takeWhile Char.isDigit
  if ds.isEmpty then none
  else some (ds.foldl (fun a c => 10 * a + (c.toNat - 48)) 0)

/-- JavaScript `parseInt` on a string (base 10, as the handler uses it):
skip leading whitespace, accept an optional sign, then read leading
digits; `none` models `NaN`. -/
def jsParseIntStr (s : String) : Option ℤ :=
  let cs := s.toList.dropWhile (fun c => c = ' ' ∨ c = '\t' ∨ c = '\n' ∨ c = '\r')
  match cs with
  | '-' :: rest => (leadDigits rest).map (fun n => -(n : ℤ))
  | '+' :: rest => (leadDigits rest).map (fun n => (n : ℤ))
  | rest => (leadDigits rest).map (fun n => (n : ℤ))

/-- One CSV row as the search handler reads it.  `Institute` stands for
the opaque display fields the engine passes through untouched. -/
structure Record where
  rowType : String
  quota : String
  seatType : String
  gender : String
  stateId : ℤ
  openingRank : ℤ
  closingRank : ℤ
  institute : String
deriving DecidableEq

/-- The `reservations` table of the handler (lines 268-279): reservation
code to seat-category label; `none` models the `undefined` a lookup of an
unknown key yields. -/
def reservations : String → Option String
  | "O" => some "OPEN"
  | "E" => some "EWS"
  | "ON" => some "OBC-NCL"
  | "SC" => some "SC"
  | "ST" => some "ST"
  | "OP" => some "OPEN (PwD)"
  | "ONP" => some "OBC-NCL (PwD)"
  | "EP" => some "EWS (PwD)"
  | "SCP" => some "SC (PwD)"
  | "STP" => some "ST (PwD)"
  | _ => none

/-- The `genders` table of the handler (lines 281-284). -/
def genders : String → Option String
  | "M" => some "Gender-Neutral"
  | "F" => some "Female-only (including Supernumerary)"
  | _ => none

/-- `row['SeatType'] === reservations[resver]`: comparison of a row string
with a possibly-`undefined` table lookup (`undefined` never equals a
string). -/
def seatTypeMatches (resver : String) (r : Record) : Bool :=
  match reservations resver with
  | some cat => r.seatType == cat
  | none => false

/-- `gend === 'F' || row['Gender'] === genders[gend]` (lines 294, 303). -/
def genderMatches (gend : String) (r : Record) : Bool :=
  gend == "F" ||
    (match genders gend with
     | some g => r.gender == g
     | none => false)

/-- The tolerance-corrected rank of lines 257-266:
`parseInt(rank*(100-2*tolaran)/100)` for a female query and
`parseInt(rank*(100-tolaran)/100)` otherwise. -/
def rankCorrected (rank : ℤ) (tolaran : JsNum) (isFemale : Bool) : JsNum :=
  jsParseIntNum
    (JsNum.div100
      (JsNum.mul (JsNum.fin (rank : ℚ))
        (JsNum.sub (JsNum.fin 100)
          (if isFemale then JsNum.mul (JsNum.fin 2) tolaran else tolaran))))

/-- The advanced-tier filter predicate (lines 290-296). -/
def advPred (resver gend : String) (advTh : JsNum) (r : Record) : Bool :=
  r.rowType == "IIT" &&
  r.quota == "AI" &&
  seatTypeMatches resver r &&
  genderMatches gend r &&
  jsGeIntNum r.closingRank advTh

/-- The mains-tier filter predicate (lines 298-305). -/
def mainsPred (resver gend : String) (stid : ℤ) (mainTh : JsNum) (r : Record) : Bool :=
  r.rowType != "IIT" &&
  (r.quota == "AI" || r.stateId == stid) &&
  seatTypeMatches resver r &&
  genderMatches gend r &&
  jsGeIntNum r.closingRank mainTh

/-- The sort comparator of lines 309-324 as a boolean order: `a` precedes
or ties `b` when its closing rank is smaller, or equal with an opening
rank at most `b`'s. -/
def recLE (a b : Record) : Bool :=
  a.closingRank < b.closingRank ||
    (a.closingRank == b.closingRank && a.openingRank ≤ b.openingRank)

/-- `Array.prototype.sort` with the handler's comparator: a stable sort by
closing rank ascending, ties by opening rank ascending. -/
def rankSort (l : List Record) : List Record :=
  l.mergeSort recLE

/-- JavaScript `array.slice(0, e)`: a negative end counts from the end of
the array (clamped at zero), a non-negative end is clamped at the
length. -/
def jsSlice0 (l : List Record) (e : ℤ) : List Record :=
  if e < 0 then l.take ((l.length : ℤ) + e).toNat else l.take e.toNat

/-- Lines 325-334: `len = Math.min(reqlen, list.length)` followed by
`list.slice(0, len)`. -/
def truncTier (l : List Record) (reqlen : ℤ) : List Record :=
  jsSlice0 l (min reqlen (l.length : ℤ))

/-- The three error responses the search handler can produce: the 400 for
invalid query parameters (line 249), the 400 for a non-numeric `main`
value (line 254), and the 404 when no results are found (line 328). -/
inductive SearchError where
  | invalidParams : SearchError
  | valueNotNumber : SearchError
  | noResults : SearchError
deriving DecidableEq

/-- The search handler's local view of the query parameters after the
boundary parsing of lines 240-246: `resver` and `gend` are the defaulted
strings, `stid`, `adv` and `reqlen` are `parseInt` results (`none` is
`NaN`), `tolaran` is a `parseFloat` result, and `main` is the raw string
(`""` when absent). -/
structure Query where
  resver : String
  gend : String
  stid : Option ℤ
  adv : Option ℤ
  tolaran : JsNum
  main : String
  reqlen : Option ℤ
deriving DecidableEq

/-- The advanced-tier filtered set (lines 286-297): `results['adv']`
stays the initial empty array unless `adv` is truthy, in which case the
store is filtered by the advanced predicate. -/
def advFiltered (records : List Record) (resver gend : String)
    (advTh : JsNum) (adv : ℤ) : List Record :=
  if adv ≠ 0 then records.filter (advPred resver gend advTh) else []

/-- The mains-tier filtered set (lines 298-305). -/
def mainsFiltered (records : List Record) (resver gend : String)
    (stid : ℤ) (mainTh : JsNum) : List Record :=
  records.filter (mainsPred resver gend stid mainTh)

/-- The filter-sort-truncate core of the handler (lines 257-334), after
parameter validation: given the parsed parameters, produce the two tier
lists or an error. -/
def searchCore (records : List Record) (resver gend : String)
    (stid adv : ℤ) (tolaran : JsNum) (mainrank : ℤ) (reqlen : ℤ) :
    Except SearchError (List Record × List Record) :=
  let mainTh := rankCorrected mainrank tolaran (gend == "F")
  let advTh := rankCorrected adv tolaran (gend == "F")
  let advSorted := rankSort (advFiltered records resver gend advTh adv)
  let mainsSorted := rankSort (mainsFiltered records resver gend stid mainTh)
  let len1 := min reqlen (advSorted.length : ℤ)
  let len2 := min reqlen (mainsSorted.length : ℤ)
  if len1 + len2 = 0 then Except.error SearchError.noResults
  else Except.ok (jsSlice0 advSorted len1, jsSlice0 mainsSorted len2)

/-- The full `GET /api/search` handler (lines 232-343): validation of the
parsed parameters, parse of `main`, then the filter-sort-truncate core. -/
def search (records : List Record) (q : Query) :
    Except SearchError (List Record × List Record) :=
  if q.resver = "" ∨ q.gend = "" ∨ q.stid = none ∨ q.adv = none ∨
      q.tolaran.isNaN ∨ q.main = "" ∨ q.reqlen = none then
    Except.error SearchError.invalidParams
  else
    match jsParseIntStr q.main with
    | none => Except.error SearchError.valueNotNumber
    | some mainrank =>
        searchCore records q.resver q.gend (q.stid.getD 0) (q.adv.getD 0)
          q.tolaran mainrank (q.reqlen.getD 0)

/-- The server's module-level mutable state (lines 33-37): the record
store and the loaded flag.  `dataStats` and `memoryUsage` are not read by
the search handler and are omitted. -/
structure ServerState where
  records : List Record
  dataLoaded : Bool
deriving DecidableEq

/-- The `GET /api/search` handler as a state transformer: if the data is
not yet loaded it first runs `initData` (abstracted as `load`, external
CSV I/O); afterwards the body only reads `records` — its filters and
slices copy, and its sorts mutate the local copies — so the handler
returns the state it started from once loaded. -/
def searchSt (load : ServerState → ServerState) (st : ServerState) (q : Query) :
    Except SearchError (List Record × List Record) × ServerState :=
  let st0 := if st.dataLoaded then st else load st
  (search st0.records q, st0)

/-- The tolerance-adjustment formula of lines 257-266 at the level of
exact rationals: truncation toward zero of
`rank * (100 - multiplier * tolerancePct) / 100` with multiplier `2` for
a female candidate and `1` otherwise. -/
def adjust (rank : ℤ) (tolerancePct : ℚ) (isFemale : Bool) : ℤ :=
  ratTrunc ((rank : ℚ) * (100 - (if isFemale then 2 else 1) * tolerancePct) / 100)

/-- Institute tiers as the specification names them. -/
inductive InstituteTier where
  | advancedTier : InstituteTier
  | standardTier : InstituteTier
deriving DecidableEq

/-- Specification reading of a record's institute type: `AdvancedTier`
exactly when the `Type` column is `IIT`. -/
def instituteTypeOf (r : Record) : InstituteTier :=
  if r.rowType = "IIT" then InstituteTier.advancedTier else InstituteTier.standardTier

/-- Spec rule 1 for the Advanced tier: `instituteType = AdvancedTier`
and `quota = AllIndia`. -/
def specAdvTierRule (r : Record) : Prop :=
  instituteTypeOf r = InstituteTier.advancedTier ∧ r.quota = "AI"

/-- Spec rule 1 for the Main tier: `instituteType = StandardTier` and
(`quota = AllIndia` or the record's state id equals the query's
home-state id). -/
def specMainTierRule (stid : ℤ) (r : Record) : Prop :=
  instituteTypeOf r = InstituteTier.standardTier ∧ (r.quota = "AI" ∨ r.stateId = stid)

/-- Spec rule 2: the record's seat category equals the category the
query's reservation code resolves to. -/
def specCategoryRule (resver : String) (r : Record) : Prop :=
  reservations resver = some r.seatType

/-- Spec rule 3, the gender-eligibility predicate of the specification: a
Female query matches every gender policy, a Male query matches only
GenderNeutral records. -/
def specGenderRule (gend : String) (r : Record) : Prop :=
  gend = "F" ∨ r.gender = "Gender-Neutral"

/-- Spec rule 4: the record's closing rank is at or beyond the tier's
tolerance-adjusted rank threshold. -/
def specRankRule (threshold : ℤ) (r : Record) : Prop :=
  threshold ≤ r.closingRank

theorem rankCorrected_fin (rank : ℤ) (t : ℚ) (isF : Bool) :
    rankCorrected rank (JsNum.fin t) isF = JsNum.fin ((adjust rank t isF : ℤ) : ℚ) := by
  cases isF <;>
    simp [rankCorrected, adjust, JsNum.mul, JsNum.sub, JsNum.div100, jsParseIntNum]

theorem jsGeIntNum_fin_int (a z : ℤ) :
    jsGeIntNum a (JsNum.fin (z : ℚ)) = true ↔ z ≤ a := by
  simp [jsGeIntNum]

/-- A sample standard-tier (non-IIT) record: all-India quota, OPEN seat,
gender-neutral, closing rank 1000. -/
def recNIT : Record :=
  { rowType := "NIT", quota := "AI", seatType := "OPEN",
    gender := "Gender-Neutral", stateId := 3, openingRank := 10,
    closingRank := 1000, institute := "NIT B" }

/-- A sample advanced-tier (IIT) record. -/
def recIIT : Record :=
  { rowType := "IIT", quota := "AI", seatType := "OPEN",
    gender := "Gender-Neutral", stateId := 3, openingRank := 10,
    closingRank := 100, institute := "IIT A" }

/-- Two records that tie on both sort keys but differ in the opaque
display field. -/
def recTieA : Record :=
  { rowType := "NIT", quota := "AI", seatType := "OPEN",
    gender := "Gender-Neutral", stateId := 3, openingRank := 10,
    closingRank := 100, institute := "InstA" }

/-- See `recTieA`. -/
def recTieB : Record :=
  { rowType := "NIT", quota := "AI", seatType := "OPEN",
    gender := "Gender-Neutral", stateId := 3, openingRank := 10,
    closingRank := 100, institute := "InstB" }

theorem genders_M : genders "M" = some "Gender-Neutral" := rfl

theorem isNaN_iff (x : JsNum) : x.isNaN = true ↔ x = JsNum.nan := by
  cases x <;> simp [JsNum.isNaN]

theorem searchCore_ne_invalidParams (records : List Record) (resver gend : String)
    (stid adv : ℤ) (tolaran : JsNum) (mainrank reqlen : ℤ) :
    searchCore records resver gend stid adv tolaran mainrank reqlen ≠
      Except.error SearchError.invalidParams := by
  simp only [searchCore]
  split <;> simp

theorem instituteTypeOf_advanced (r : Record) :
    instituteTypeOf r = InstituteTier.advancedTier ↔ r.rowType = "IIT" := by
  unfold instituteTypeOf
  split
  · next h => simp [h]
  · next h => simp [h]

theorem instituteTypeOf_standard (r : Record) :
    instituteTypeOf r = InstituteTier.standardTier ↔ r.rowType ≠ "IIT" := by
  unfold instituteTypeOf
  split
  · next h => simp [h]
  · next h => simp [h]

theorem seatTypeMatches_iff (resver : String) (r : Record) :
    seatTypeMatches resver r = true ↔ specCategoryRule resver r := by
  unfold seatTypeMatches specCategoryRule
  split
  · next cat h =>
      rw [h]
      simp only [beq_iff_eq, Option.some.injEq]
      exact eq_comm
  · next h => simp [h]

theorem genderMatches_iff (gend : String) (r : Record)
    (hg : gend = "M" ∨ gend = "F") :
    genderMatches gend r = true ↔ specGenderRule gend r := by
  rcases hg with h | h <;> subst h <;>
    simp [genderMatches, specGenderRule, genders]

theorem rankRule_iff (rank : ℤ) (t : ℚ) (isF : Bool) (r : Record) :
    jsGeIntNum r.closingRank (rankCorrected rank (JsNum.fin t) isF) = true ↔
      specRankRule (adjust rank t isF) r := by
  rw [rankCorrected_fin, jsGeIntNum_fin_int]
  rfl

theorem ratTrunc_of_nonneg (q : ℚ) (h : 0 ≤ q) : ratTrunc q = ⌊q⌋ := by
  unfold ratTrunc
  rw [if_pos h]

theorem ratTrunc_of_neg (q : ℚ) (h : q < 0) : ratTrunc q = -⌊-q⌋ := by
  unfold ratTrunc
  rw [if_neg (not_le.mpr h)]

/-- Claim C6: a Female query is never excluded by the gender condition of
the filters, whatever the record's gender policy; a Male query passes the
gender condition exactly for Gender-Neutral records. -/
theorem c6_gender_rule (r : Record) :
    genderMatches "F" r = true ∧
      (genderMatches "M" r = true ↔ r.gender = "Gender-Neutral") := by
  constructor
  · simp [genderMatches]
  · unfold genderMatches
    rw [genders_M]
    simp

/-- Claim C2 counterexample: for raw rank 1, tolerance 150 (finite and
non-negative) and a male candidate, the code's adjusted threshold is 0
while the floor formula of the claim gives -1. -/
theorem c2_counterexample :
    rankCorrected 1 (JsNum.fin 150) false = JsNum.fin ((0 : ℤ) : ℚ) ∧
    ⌊((1 : ℤ) : ℚ) * (100 - (1 : ℚ) * 150) / 100⌋ = -1 ∧ (0 : ℤ) ≠ -1 := by
  refine ⟨?_, ?_, by norm_num⟩
  · rw [rankCorrected_fin]
    have hq : ((1 : ℤ) : ℚ) * (100 - (if false then 2 else 1 : ℚ) * 150) / 100
        = -(1 / 2) := by norm_num
    unfold adjust
    rw [hq, ratTrunc_of_neg (-(1 / 2)) (by norm_num)]
    have : ⌊(-(-(1 / 2)) : ℚ)⌋ = 0 := Int.floor_eq_iff.mpr (by norm_num)
    rw [this]
    norm_num
  · have hq : ((1 : ℤ) : ℚ) * (100 - (1 : ℚ) * 150) / 100 = -(1 / 2) := by
      norm_num
    rw [hq]
    exact Int.floor_eq_iff.mpr (by norm_num)

/-- Claim C2 (amended): the tolerance-adjusted threshold is the truncation
toward zero of `rawRank * (100 - m * t) / 100` with `m = 2` for a female
candidate and `1` otherwise, applied independently to the main-tier and
advanced-tier ranks; it agrees with the floor form of the claim whenever
the pre-division product is non-negative (in particular whenever
`m * t <= 100` for a non-negative raw rank). -/
theorem c2_adjust_formula (mainrank advrank : ℤ) (t : ℚ) (isF : Bool) :
    rankCorrected mainrank (JsNum.fin t) isF
        = JsNum.fin ((adjust mainrank t isF : ℤ) : ℚ) ∧
    rankCorrected advrank (JsNum.fin t) isF
        = JsNum.fin ((adjust advrank t isF : ℤ) : ℚ) ∧
    (0 ≤ (mainrank : ℚ) * (100 - (if isF then 2 else 1) * t) →
      adjust mainrank t isF
        = ⌊(mainrank : ℚ) * (100 - (if isF then 2 else 1) * t) / 100⌋) := by
  refine ⟨rankCorrected_fin _ _ _, rankCorrected_fin _ _ _, fun h => ?_⟩
  unfold adjust
  exact ratTrunc_of_nonneg _ (div_nonneg h (by norm_num))

/-- Witness for `c2_adjust_formula` at raw ranks 50000 and 2000,
tolerance 2.5, male. -/
theorem c2_adjust_formula_witness :
    rankCorrected 50000 (JsNum.fin 2.5) false
        = JsNum.fin ((adjust 50000 2.5 false : ℤ) : ℚ) ∧
    rankCorrected 2000 (JsNum.fin 2.5) false
        = JsNum.fin ((adjust 2000 2.5 false : ℤ) : ℚ) ∧
    adjust 50000 2.5 false
        = ⌊((50000 : ℤ) : ℚ) * (100 - (if false then 2 else 1) * 2.5) / 100⌋ := by
  obtain ⟨h1, h2, h3⟩ := c2_adjust_formula 50000 2000 2.5 false
  exact ⟨h1, h2, h3 (by norm_num)⟩

/-- Claim C7 counterexample: with cap -2 and a three-record filtered
sequence, truncation returns one record, which exceeds the cap, and is
not the `min(cap, length) = -2` of the claim. -/
theorem c7_counterexample :
    (truncTier [recNIT, recNIT, recNIT] (-2)).length = 1 ∧
    ¬ (((truncTier [recNIT, recNIT, recNIT] (-2)).length : ℤ) ≤ -2) ∧
    ((truncTier [recNIT, recNIT, recNIT] (-2)).length : ℤ)
      ≠ min (-2 : ℤ) ([recNIT, recNIT, recNIT].length : ℤ) := by
  refine ⟨by decide, ?_, ?_⟩ <;> rw [(by decide :
    (truncTier [recNIT, recNIT, recNIT] (-2)).length = 1)] <;> decide

/-- Claim C7 (amended): for every non-negative cap, truncation returns
exactly `min(cap, length)` elements and never more than the cap. -/
theorem c7_truncation (l : List Record) (cap : ℤ) (hc : 0 ≤ cap) :
    (truncTier l cap).length = min cap.toNat l.length ∧
    (truncTier l cap).length ≤ cap.toNat := by
  unfold truncTier jsSlice0
  rw [if_neg (by omega : ¬ min cap (l.length : ℤ) < 0)]
  simp only [List.length_take]
  omega

/-- Witness for `c7_truncation` with a one-record sequence and cap 1. -/
theorem c7_truncation_witness :
    (0 : ℤ) ≤ 1 ∧
    ((truncTier [recNIT] 1).length = min (1 : ℤ).toNat [recNIT].length ∧
     (truncTier [recNIT] 1).length ≤ (1 : ℤ).toNat) :=
  ⟨by norm_num, c7_truncation [recNIT] 1 (by norm_num)⟩

/-- Claim C10: with a negative cap `c` and a tier sequence longer than
`|c|`, the slice drops the last `|c|` elements, returning
`length - |c|` records — more than `c`. -/
theorem c10_negative_cap (l : List Record) (c : ℤ) (hc : c < 0)
    (hn : (c.natAbs : ℤ) < (l.length : ℤ)) :
    ((truncTier l c).length : ℤ) = (l.length : ℤ) - (c.natAbs : ℤ) ∧
    c < ((truncTier l c).length : ℤ) := by
  unfold truncTier jsSlice0
  rw [(by omega : min c (l.length : ℤ) = c), if_pos hc]
  simp only [List.length_take]
  omega

/-- Witness for `c10_negative_cap` with three records and cap -2. -/
theorem c10_negative_cap_witness :
    (-2 : ℤ) < 0 ∧ (((-2 : ℤ).natAbs : ℤ) < (([recNIT, recNIT, recNIT] : List Record).length : ℤ)) ∧
    (((truncTier [recNIT, recNIT, recNIT] (-2)).length : ℤ)
        = (([recNIT, recNIT, recNIT] : List Record).length : ℤ) - ((-2 : ℤ).natAbs : ℤ) ∧
      (-2 : ℤ) < ((truncTier [recNIT, recNIT, recNIT] (-2)).length : ℤ)) :=
  ⟨by norm_num, by norm_num,
    c10_negative_cap [recNIT, recNIT, recNIT] (-2) (by norm_num) (by norm_num)⟩

theorem recLE_trans (a b c : Record) : recLE a b → recLE b c → recLE a c := by
  simp only [recLE, Bool.or_eq_true, Bool.and_eq_true, decide_eq_true_eq,
    beq_iff_eq]
  omega

theorem recLE_total (a b : Record) : recLE a b || recLE b a := by
  simp only [recLE, Bool.or_eq_true, Bool.and_eq_true, decide_eq_true_eq,
    beq_iff_eq]
  omega

theorem eq_of_perm_of_sorted_on {α : Type} {r : α → α → Bool} :
    ∀ {l₁ l₂ : List α}, l₁.Perm l₂ →
      List.Pairwise (fun a b => r a b = true) l₁ →
      List.Pairwise (fun a b => r a b = true) l₂ →
      (∀ a ∈ l₁, ∀ b ∈ l₁, r a b = true → r b a = true → a = b) →
      l₁ = l₂ := by
  intro l₁
  induction l₁ with
  | nil =>
    intro l₂ hp _ _ _
    exact (hp.symm.eq_nil).symm
  | cons a t ih =>
    intro l₂ hp hs₁ hs₂ hanti
    cases l₂ with
    | nil => exact absurd hp.eq_nil (by simp)
    | cons b t₂ =>
      obtain ⟨hab₁, hs₁t⟩ := List.pairwise_cons.mp hs₁
      obtain ⟨hba₁, hs₂t⟩ := List.pairwise_cons.mp hs₂
      have hab : a = b := by
        by_cases h : a = b
        · exact h
        · have hbmem : b ∈ a :: t := hp.mem_iff.mpr (List.mem_cons_self b t₂)
          have hbt : b ∈ t := by
            rcases List.mem_cons.mp hbmem with h' | h'
            · exact absurd h'.symm h
            · exact h'
          have hamem : a ∈ b :: t₂ := hp.mem_iff.mp (List.mem_cons_self a t)
          have hat₂ : a ∈ t₂ := by
            rcases List.mem_cons.mp hamem with h' | h'
            · exact absurd h' h
            · exact h'
          exact hanti a (List.mem_cons_self a t) b (List.mem_cons_of_mem a hbt)
            (hab₁ b hbt) (hba₁ a hat₂)
      subst hab
      have hp' : t.Perm t₂ := hp.cons_inv
      have ht : t = t₂ :=
        ih hp' hs₁t hs₂t
          (fun x hx y hy hxy hyx =>
            hanti x (List.mem_cons_of_mem a hx) y (List.mem_cons_of_mem a hy) hxy hyx)
      rw [ht]

/-- Claim C5 counterexample: two distinct records that tie on both sort
keys; the ranker maps the two orderings of the same two-record set to
different output sequences. -/
theorem c5_counterexample :
    ([recTieB, recTieA] : List Record).Perm [recTieA, recTieB] ∧
    rankSort [recTieB, recTieA] ≠ rankSort [recTieA, recTieB] := by
  constructor
  · exact List.Perm.swap recTieA recTieB []
  · have h1 : rankSort [recTieB, recTieA] = [recTieB, recTieA] := by
      unfold rankSort
      exact List.mergeSort_of_sorted (by decide)
    have h2 : rankSort [recTieA, recTieB] = [recTieA, recTieB] := by
      unfold rankSort
      exact List.mergeSort_of_sorted (by decide)
    rw [h1, h2]
    decide

/-- Claim C5 (amended): the ranker's output sequence is invariant under
permuting its input whenever no two distinct records of the input tie on
both sort keys (closing and opening rank); with exact ties among distinct
records the stable sort preserves the two input orders, which differ. -/
theorem c5_rank_perm_invariant (l₁ l₂ : List Record)
    (hperm : l₁.Perm l₂)
    (hkey : ∀ a ∈ l₁, ∀ b ∈ l₁,
      a.closingRank = b.closingRank → a.openingRank = b.openingRank → a = b) :
    rankSort l₁ = rankSort l₂ := by
  unfold rankSort
  apply eq_of_perm_of_sorted_on
    ((List.mergeSort_perm l₁ recLE).trans
      (hperm.trans (List.mergeSort_perm l₂ recLE).symm))
    (List.sorted_mergeSort recLE_trans recLE_total l₁)
    (List.sorted_mergeSort recLE_trans recLE_total l₂)
  intro a ha b hb hab hba
  have ha' : a ∈ l₁ := List.mem_mergeSort.mp ha
  have hb' : b ∈ l₁ := List.mem_mergeSort.mp hb
  simp only [recLE, Bool.or_eq_true, Bool.and_eq_true, decide_eq_true_eq,
    beq_iff_eq] at hab hba
  exact hkey a ha' b hb' (by omega) (by omega)

/-- Witness for `c5_rank_perm_invariant` on a two-record set with
distinct keys. -/
theorem c5_rank_perm_invariant_witness :
    ([recNIT, recIIT] : List Record).Perm [recIIT, recNIT] ∧
    rankSort [recNIT, recIIT] = rankSort [recIIT, recNIT] :=
  ⟨List.Perm.swap recIIT recNIT [],
    c5_rank_perm_invariant [recNIT, recIIT] [recIIT, recNIT]
      (List.Perm.swap recIIT recNIT []) (by decide)⟩

theorem advPred_iff (resver gend : String) (advrank : ℤ) (t : ℚ) (r : Record)
    (hg : gend = "M" ∨ gend = "F") :
    advPred resver gend (rankCorrected advrank (JsNum.fin t) (gend == "F")) r = true ↔
      specAdvTierRule r ∧ specCategoryRule resver r ∧ specGenderRule gend r ∧
        specRankRule (adjust advrank t (gend == "F")) r := by
  unfold advPred specAdvTierRule
  simp only [Bool.and_eq_true, beq_iff_eq, seatTypeMatches_iff,
    genderMatches_iff _ _ hg, rankRule_iff, instituteTypeOf_advanced]
  tauto

theorem mainsPred_iff (resver gend : String) (stid mainrank : ℤ) (t : ℚ) (r : Record)
    (hg : gend = "M" ∨ gend = "F") :
    mainsPred resver gend stid (rankCorrected mainrank (JsNum.fin t) (gend == "F")) r = true ↔
      specMainTierRule stid r ∧ specCategoryRule resver r ∧ specGenderRule gend r ∧
        specRankRule (adjust mainrank t (gend == "F")) r := by
  unfold mainsPred specMainTierRule
  simp only [Bool.and_eq_true, Bool.or_eq_true, beq_iff_eq, bne_iff_ne,
    seatTypeMatches_iff, genderMatches_iff _ _ hg, rankRule_iff,
    instituteTypeOf_standard]
  tauto

/-- Claim C1: a record of the store appears in a tier's filtered set
exactly when the four specification rules hold for that tier — the
institute-tier/quota rule, the category rule, the gender rule and the
tolerance-adjusted rank rule — for any query with a male or female gender
flag, a finite tolerance, and (for the advanced tier) an advanced rank
supplied. -/
theorem c1_filter_rules (records : List Record) (resver gend : String)
    (stid advrank mainrank : ℤ) (t : ℚ) (r : Record)
    (hg : gend = "M" ∨ gend = "F") (hr : r ∈ records) :
    (advrank ≠ 0 →
      (r ∈ advFiltered records resver gend
          (rankCorrected advrank (JsNum.fin t) (gend == "F")) advrank ↔
        specAdvTierRule r ∧ specCategoryRule resver r ∧ specGenderRule gend r ∧
          specRankRule (adjust advrank t (gend == "F")) r)) ∧
    (r ∈ mainsFiltered records resver gend stid
        (rankCorrected mainrank (JsNum.fin t) (gend == "F")) ↔
      specMainTierRule stid r ∧ specCategoryRule resver r ∧ specGenderRule gend r ∧
        specRankRule (adjust mainrank t (gend == "F")) r) := by
  constructor
  · intro ha
    unfold advFiltered
    rw [if_pos ha, List.mem_filter]
    simp only [hr, true_and]
    exact advPred_iff resver gend advrank t r hg
  · unfold mainsFiltered
    rw [List.mem_filter]
    simp only [hr, true_and]
    exact mainsPred_iff resver gend stid mainrank t r hg

/-- Witness for `c1_filter_rules` at a one-record store containing an IIT
record, an `O`/male query with tolerance 2.5. -/
theorem c1_filter_rules_witness :
    (("M" : String) = "M" ∨ ("M" : String) = "F") ∧ recIIT ∈ [recIIT] ∧
    (((1000 : ℤ) ≠ 0 →
      (recIIT ∈ advFiltered [recIIT] "O" "M"
          (rankCorrected 1000 (JsNum.fin 2.5) ("M" == "F")) 1000 ↔
        specAdvTierRule recIIT ∧ specCategoryRule "O" recIIT ∧
          specGenderRule "M" recIIT ∧
          specRankRule (adjust 1000 2.5 ("M" == "F")) recIIT)) ∧
    (recIIT ∈ mainsFiltered [recIIT] "O" "M" 0
        (rankCorrected 500 (JsNum.fin 2.5) ("M" == "F")) ↔
      specMainTierRule 0 recIIT ∧ specCategoryRule "O" recIIT ∧
        specGenderRule "M" recIIT ∧
        specRankRule (adjust 500 2.5 ("M" == "F")) recIIT)) :=
  ⟨Or.inl rfl, List.mem_cons_self recIIT [],
    c1_filter_rules [recIIT] "O" "M" 0 1000 500 2.5 recIIT (Or.inl rfl)
      (List.mem_cons_self recIIT [])⟩

/-- Claim C9: once the store is loaded, a search call returns the server
state unchanged, and its response is the pure `search` function of the
stored records and the query parameters alone. -/
theorem c9_store_unchanged (load : ServerState → ServerState) (st : ServerState)
    (q : Query) (h : st.dataLoaded = true) :
    (searchSt load st q).2 = st ∧ (searchSt load st q).1 = search st.records q := by
  simp [searchSt, h]

/-- A sample well-formed query: code `O`, male, tolerance 2.5, main rank
1000000 (matching nothing in the sample stores), cap 20, no advanced
rank. -/
def qOpenNoMatch : Query :=
  { resver := "O", gend := "M", stid := some 0, adv := some 0,
    tolaran := JsNum.fin 2.5, main := "1000000", reqlen := some 20 }

/-- A query with the out-of-set reservation code `XX`. -/
def qUnknownCode : Query :=
  { resver := "XX", gend := "M", stid := some 0, adv := some 0,
    tolaran := JsNum.fin 2.5, main := "100", reqlen := some 20 }

/-- A query with a finite negative tolerance percentage. -/
def qNegTol : Query :=
  { resver := "O", gend := "M", stid := some 0, adv := some 0,
    tolaran := JsNum.fin (-5), main := "100", reqlen := some 20 }

/-- A query with a negative result-count cap. -/
def qNegCap : Query :=
  { resver := "O", gend := "M", stid := some 0, adv := some 0,
    tolaran := JsNum.fin 2.5, main := "100", reqlen := some (-1) }

/-- Witness for `c9_store_unchanged` on a loaded one-record store. -/
theorem c9_store_unchanged_witness :
    (ServerState.mk [recNIT] true).dataLoaded = true ∧
    ((searchSt (fun _ => ServerState.mk [] true)
        (ServerState.mk [recNIT] true) qOpenNoMatch).2 = ServerState.mk [recNIT] true ∧
     (searchSt (fun _ => ServerState.mk [] true)
        (ServerState.mk [recNIT] true) qOpenNoMatch).1
        = search (ServerState.mk [recNIT] true).records qOpenNoMatch) :=
  ⟨rfl, c9_store_unchanged (fun _ => ServerState.mk [] true)
    (ServerState.mk [recNIT] true) qOpenNoMatch rfl⟩

theorem jsGeIntNum_fin_int_eq (a z : ℤ) :
    jsGeIntNum a (JsNum.fin (z : ℚ)) = decide (z ≤ a) := by
  unfold jsGeIntNum
  rw [decide_eq_decide]
  exact Int.cast_le

theorem adjust_eval (rank : ℤ) (t : ℚ) (isF : Bool) (z : ℤ)
    (h1 : (z : ℚ) ≤ (rank : ℚ) * (100 - (if isF then 2 else 1) * t) / 100)
    (h2 : (rank : ℚ) * (100 - (if isF then 2 else 1) * t) / 100 < z + 1)
    (hz : 0 ≤ z) :
    adjust rank t isF = z := by
  unfold adjust
  rw [ratTrunc_of_nonneg _ (le_trans (by exact_mod_cast hz) h1)]
  exact Int.floor_eq_iff.mpr ⟨h1, h2⟩

theorem search_eq_core (records : List Record) (q : Query)
    (m stid adv reqlen : ℤ)
    (h1 : q.resver ≠ "") (h2 : q.gend ≠ "")
    (h3 : q.stid = some stid) (h4 : q.adv = some adv)
    (h5 : q.tolaran.isNaN = false) (h6 : q.main ≠ "")
    (h7 : q.reqlen = some reqlen) (hm : jsParseIntStr q.main = some m) :
    search records q
      = searchCore records q.resver q.gend stid adv q.tolaran m reqlen := by
  unfold search
  rw [if_neg (by simp [h1, h2, h3, h4, h5, h6, h7]), hm]
  rw [h3, h4, h7]
  simp

/-- Claim C4 counterexample: the finite negative tolerance -5 is neither
rejected nor does it fail the calculation — the engine accepts it and
returns a result (the threshold tightens to 105). -/
theorem c4_counterexample :
    search [recNIT] qNegTol = Except.ok ([], [recNIT]) := by
  have hm : jsParseIntStr "100" = some 100 := by decide
  rw [search_eq_core [recNIT] qNegTol 100 0 0 20 (by decide) (by decide) rfl rfl
    rfl (by decide) rfl hm]
  have hadj : adjust 100 (-5) false = 105 :=
    adjust_eval 100 (-5) false 105 (by norm_num) (by norm_num) (by norm_num)
  have hth : rankCorrected 100 qNegTol.tolaran (qNegTol.gend == "F")
      = JsNum.fin ((105 : ℤ) : ℚ) := by
    rw [(by decide : (qNegTol.gend == "F") = false)]
    show rankCorrected 100 (JsNum.fin (-5)) false = _
    rw [rankCorrected_fin, hadj]
  have hadvF : advFiltered [recNIT] qNegTol.resver qNegTol.gend
      (rankCorrected 0 qNegTol.tolaran (qNegTol.gend == "F")) 0 = [] := by
    simp [advFiltered]
  have hpred : mainsPred qNegTol.resver qNegTol.gend 0
      (JsNum.fin ((105 : ℤ) : ℚ)) recNIT = true := by
    unfold mainsPred
    rw [jsGeIntNum_fin_int_eq]
    decide
  have hmainsF : mainsFiltered [recNIT] qNegTol.resver qNegTol.gend 0
      (rankCorrected 100 qNegTol.tolaran (qNegTol.gend == "F")) = [recNIT] := by
    unfold mainsFiltered
    rw [hth]
    simp only [List.filter_cons, List.filter_nil, hpred]
    simp
  simp only [searchCore]
  rw [hadvF, hmainsF]
  simp [rankSort, jsSlice0]

/-- Claim C8 counterexample: with cap -1 and one matching mains record,
both returned tier sequences are empty (both tiers truncate to zero
length), yet the engine answers success rather than signalling
NoResults, because `min(-1,0) + min(-1,1) = -2` is nonzero. -/
theorem c8_counterexample :
    search [recNIT] qNegCap = Except.ok ([], []) := by
  have hm : jsParseIntStr "100" = some 100 := by decide
  rw [search_eq_core [recNIT] qNegCap 100 0 0 (-1) (by decide) (by decide) rfl rfl
    rfl (by decide) rfl hm]
  have hadj : adjust 100 2.5 false = 97 :=
    adjust_eval 100 2.5 false 97 (by norm_num) (by norm_num) (by norm_num)
  have hth : rankCorrected 100 qNegCap.tolaran (qNegCap.gend == "F")
      = JsNum.fin ((97 : ℤ) : ℚ) := by
    rw [(by decide : (qNegCap.gend == "F") = false)]
    show rankCorrected 100 (JsNum.fin 2.5) false = _
    rw [rankCorrected_fin, hadj]
  have hadvF : advFiltered [recNIT] qNegCap.resver qNegCap.gend
      (rankCorrected 0 qNegCap.tolaran (qNegCap.gend == "F")) 0 = [] := by
    simp [advFiltered]
  have hpred : mainsPred qNegCap.resver qNegCap.gend 0
      (JsNum.fin ((97 : ℤ) : ℚ)) recNIT = true := by
    unfold mainsPred
    rw [jsGeIntNum_fin_int_eq]
    decide
  have hmainsF : mainsFiltered [recNIT] qNegCap.resver qNegCap.gend 0
      (rankCorrected 100 qNegCap.tolaran (qNegCap.gend == "F")) = [recNIT] := by
    unfold mainsFiltered
    rw [hth]
    simp only [List.filter_cons, List.filter_nil, hpred]
    simp
  simp only [searchCore]
  rw [hadvF, hmainsF]
  norm_num [rankSort, jsSlice0]

/-- Claim C3 counterexample: the out-of-set code `XX` does not fail with
a distinct UnknownCode error — it produces the same generic NoResults
outcome (the 404) that a well-formed query matching nothing produces. -/
theorem c3_counterexample :
    search [recNIT] qUnknownCode = Except.error SearchError.noResults ∧
    search [recNIT] qOpenNoMatch = Except.error SearchError.noResults := by
  constructor
  · have hm : jsParseIntStr "100" = some 100 := by decide
    rw [search_eq_core [recNIT] qUnknownCode 100 0 0 20 (by decide) (by decide)
      rfl rfl rfl (by decide) rfl hm]
    have hadvF : advFiltered [recNIT] qUnknownCode.resver qUnknownCode.gend
        (rankCorrected 0 qUnknownCode.tolaran (qUnknownCode.gend == "F")) 0 = [] := by
      simp [advFiltered]
    have hpred : ∀ th, mainsPred qUnknownCode.resver qUnknownCode.gend 0 th recNIT
        = false := by
      intro th
      unfold mainsPred
      rw [(by decide : seatTypeMatches qUnknownCode.resver recNIT = false)]
      simp
    have hmainsF : mainsFiltered [recNIT] qUnknownCode.resver qUnknownCode.gend 0
        (rankCorrected 100 qUnknownCode.tolaran (qUnknownCode.gend == "F")) = [] := by
      unfold mainsFiltered
      simp only [List.filter_cons, List.filter_nil, hpred]
      simp
    simp only [searchCore]
    rw [hadvF, hmainsF]
    norm_num [rankSort]
  · have hm : jsParseIntStr "1000000" = some 1000000 := by decide
    rw [search_eq_core [recNIT] qOpenNoMatch 1000000 0 0 20 (by decide)
      (by decide) rfl rfl rfl (by decide) rfl hm]
    have hadj : adjust 1000000 2.5 false = 975000 :=
      adjust_eval 1000000 2.5 false 975000 (by norm_num) (by norm_num) (by norm_num)
    have hth : rankCorrected 1000000 qOpenNoMatch.tolaran (qOpenNoMatch.gend == "F")
        = JsNum.fin ((975000 : ℤ) : ℚ) := by
      rw [(by decide : (qOpenNoMatch.gend == "F") = false)]
      show rankCorrected 1000000 (JsNum.fin 2.5) false = _
      rw [rankCorrected_fin, hadj]
    have hadvF : advFiltered [recNIT] qOpenNoMatch.resver qOpenNoMatch.gend
        (rankCorrected 0 qOpenNoMatch.tolaran (qOpenNoMatch.gend == "F")) 0 = [] := by
      simp [advFiltered]
    have hpred : mainsPred qOpenNoMatch.resver qOpenNoMatch.gend 0
        (JsNum.fin ((975000 : ℤ) : ℚ)) recNIT = false := by
      unfold mainsPred
      rw [jsGeIntNum_fin_int_eq]
      decide
    have hmainsF : mainsFiltered [recNIT] qOpenNoMatch.resver qOpenNoMatch.gend 0
        (rankCorrected 1000000 qOpenNoMatch.tolaran (qOpenNoMatch.gend == "F")) = [] := by
      unfold mainsFiltered
      rw [hth]
      simp only [List.filter_cons, List.filter_nil, hpred]
      simp
    simp only [searchCore]
    rw [hadvF, hmainsF]
    norm_num [rankSort]

theorem jsSlice0_nil (e : ℤ) : jsSlice0 [] e = [] := by
  unfold jsSlice0
  split <;> simp

theorem truncTier_eq_nil_iff (l : List Record) (cap : ℤ) (hc : 0 ≤ cap) :
    truncTier l cap = [] ↔ min cap (l.length : ℤ) = 0 := by
  unfold truncTier jsSlice0
  rw [if_neg (by omega), List.take_eq_nil_iff]
  constructor
  · rintro (h | h)
    · omega
    · subst h
      simp
      omega
  · intro h
    left
    omega

/-- Claim C3 (amended): a well-formed query (non-negative cap) whose
reservation code is outside the ten-code set matches no record in either
tier, and the engine answers with the generic NoResults error — the same
404 used for an empty-but-valid outcome — not with a distinct
UnknownCode failure. -/
theorem c3_unknown_code_noResults (records : List Record) (q : Query)
    (m stid adv reqlen : ℤ)
    (hres : reservations q.resver = none)
    (h1 : q.resver ≠ "") (h2 : q.gend ≠ "")
    (h3 : q.stid = some stid) (h4 : q.adv = some adv)
    (h5 : q.tolaran.isNaN = false) (h6 : q.main ≠ "")
    (h7 : q.reqlen = some reqlen) (hm : jsParseIntStr q.main = some m)
    (hreq : 0 ≤ reqlen) :
    search records q = Except.error SearchError.noResults := by
  rw [search_eq_core records q m stid adv reqlen h1 h2 h3 h4 h5 h6 h7 hm]
  have hadvF : ∀ th, advFiltered records q.resver q.gend th adv = [] := by
    intro th
    unfold advFiltered
    split
    · rw [List.filter_eq_nil_iff]
      intro r _
      simp [advPred, seatTypeMatches, hres]
    · rfl
  have hmainsF : ∀ th, mainsFiltered records q.resver q.gend stid th = [] := by
    intro th
    unfold mainsFiltered
    rw [List.filter_eq_nil_iff]
    intro r _
    simp [mainsPred, seatTypeMatches, hres]
  simp only [searchCore]
  rw [hadvF, hmainsF]
  have h0 : rankSort ([] : List Record) = [] := by simp [rankSort]
  rw [h0]
  rw [if_pos (by simp; omega)]

/-- Witness for `c3_unknown_code_noResults` at the code `XX` on a
one-record store. -/
theorem c3_unknown_code_noResults_witness :
    reservations qUnknownCode.resver = none ∧
    jsParseIntStr qUnknownCode.main = some 100 ∧ (0 : ℤ) ≤ 20 ∧
    search [recNIT] qUnknownCode = Except.error SearchError.noResults :=
  ⟨by decide, by decide, by norm_num,
    c3_unknown_code_noResults [recNIT] qUnknownCode 100 0 0 20 (by decide)
      (by decide) (by decide) rfl rfl rfl (by decide) rfl (by decide) (by norm_num)⟩

/-- Claim C4 (amended): with every other parameter well-formed, the
search rejects the query with the invalid-parameters error exactly when
the tolerance is NaN (an unparseable number); a finite negative tolerance
or an infinite one passes validation and the calculation proceeds. -/
theorem c4_tolerance_validation (records : List Record) (q : Query)
    (h1 : q.resver ≠ "") (h2 : q.gend ≠ "") (h3 : q.stid ≠ none)
    (h4 : q.adv ≠ none) (h5 : q.main ≠ "") (h6 : q.reqlen ≠ none) :
    search records q = Except.error SearchError.invalidParams ↔
      q.tolaran = JsNum.nan := by
  by_cases ht : q.tolaran = JsNum.nan
  · unfold search
    rw [if_pos (by simp [ht, JsNum.isNaN])]
    simp [ht]
  · have hne : q.tolaran.isNaN = false := by
      cases htl : q.tolaran <;> simp_all [JsNum.isNaN]
    unfold search
    rw [if_neg (by simp [h1, h2, h3, h4, h5, h6, hne])]
    constructor
    · intro h
      cases hm : jsParseIntStr q.main with
      | none => rw [hm] at h; simp at h
      | some m =>
          rw [hm] at h
          exact absurd h
            (searchCore_ne_invalidParams records q.resver q.gend
              (q.stid.getD 0) (q.adv.getD 0) q.tolaran m (q.reqlen.getD 0))
    · intro h
      exact absurd h ht

/-- Witness for `c4_tolerance_validation` at the negative-tolerance query
on a one-record store: neither side of the equivalence holds. -/
theorem c4_tolerance_validation_witness :
    qNegTol.resver ≠ "" ∧ qNegTol.tolaran ≠ JsNum.nan ∧
    (search [recNIT] qNegTol = Except.error SearchError.invalidParams ↔
      qNegTol.tolaran = JsNum.nan) :=
  ⟨by decide, by decide,
    c4_tolerance_validation [recNIT] qNegTol (by decide) (by decide) (by decide)
      (by decide) (by decide) (by decide)⟩

/-- Claim C8 (amended): when the query supplies no advanced rank (the
parsed `adv` is its default 0), the advanced tier of any successful
response is empty; and for a non-negative cap, the engine signals
NoResults exactly when the mains tier truncates to zero length (the
advanced tier being empty, this is when both tiers truncate to zero).
With a negative cap the `len1 + len2 = 0` test cannot fire, so NoResults
is not signalled even when both truncations are empty. -/
theorem c8_no_adv_rank (records : List Record) (q : Query) (m stid reqlen : ℤ)
    (h1 : q.resver ≠ "") (h2 : q.gend ≠ "")
    (h3 : q.stid = some stid) (h4 : q.adv = some 0)
    (h5 : q.tolaran.isNaN = false) (h6 : q.main ≠ "")
    (h7 : q.reqlen = some reqlen) (hm : jsParseIntStr q.main = some m)
    (hreq : 0 ≤ reqlen) :
    (∀ advRes mainsRes, search records q = Except.ok (advRes, mainsRes) →
      advRes = []) ∧
    (search records q = Except.error SearchError.noResults ↔
      truncTier (rankSort (mainsFiltered records q.resver q.gend stid
        (rankCorrected m q.tolaran (q.gend == "F")))) reqlen = []) := by
  rw [search_eq_core records q m stid 0 reqlen h1 h2 h3 h4 h5 h6 h7 hm]
  have hadvF : advFiltered records q.resver q.gend
      (rankCorrected 0 q.tolaran (q.gend == "F")) 0 = [] := by
    simp [advFiltered]
  simp only [searchCore]
  rw [hadvF]
  have h0 : rankSort ([] : List Record) = [] := by simp [rankSort]
  rw [h0]
  rw [truncTier_eq_nil_iff _ _ hreq]
  constructor
  · intro advRes mainsRes h
    split at h
    · simp at h
    · rw [Except.ok.injEq, Prod.mk.injEq] at h
      rw [← h.1]
      exact jsSlice0_nil _
  · constructor
    · intro h
      split at h
      · next hc =>
          simp only [List.length_nil, Nat.cast_zero] at hc
          omega
      · simp at h
    · intro h
      rw [if_pos (by simp; omega)]

/-- Witness for `c8_no_adv_rank` at the no-match query on a one-record
store. -/
theorem c8_no_adv_rank_witness :
    qOpenNoMatch.adv = some 0 ∧ (0 : ℤ) ≤ 20 ∧
    ((∀ advRes mainsRes,
        search [recNIT] qOpenNoMatch = Except.ok (advRes, mainsRes) →
          advRes = []) ∧
      (search [recNIT] qOpenNoMatch = Except.error SearchError.noResults ↔
        truncTier (rankSort (mainsFiltered [recNIT] qOpenNoMatch.resver
          qOpenNoMatch.gend 0
          (rankCorrected 1000000 qOpenNoMatch.tolaran
            (qOpenNoMatch.gend == "F")))) 20 = [])) :=
  ⟨rfl, by norm_num,
    c8_no_adv_rank [recNIT] qOpenNoMatch 1000000 0 20 (by decide) (by decide)
      rfl rfl rfl (by decide) rfl (by decide) (by norm_num)⟩
